import Mathlib

/-!
Verification of the kysely-defaults-plugin discriminator component
(`src/discriminator.ts`): a query-rewriting plugin that appends
discriminator columns to an INSERT statement's conflict clause and adds
equality filters to a SELECT statement's WHERE clause, for table
references accepted by a configurable table matcher.

The statement-tree node shapes below follow the kysely operation-node
shapes that `src/discriminator.ts` reads and constructs (identifier,
schemable identifier, table, column, reference, filter/and expressions,
where, from, values, on-conflict, insert-query, select-query nodes).
Statement trees are immutable values, so the embedding is purely
functional; a thrown `Error` is embedded as `Except.error`.
-/

namespace KyselyDiscriminator

/-- Runtime values carried by a `ValueNode` (the TypeScript type is
`unknown`; embedded as a small closed universe of SQL-literal shapes,
which is all the claims need). -/
inductive DbValue where
  | str (s : String)
  | int (i : Int)
  | bool (b : Bool)
  | null
deriving DecidableEq, Repr

/-- kysely `IdentifierNode`. -/
structure IdentifierNode where
  name : String
deriving DecidableEq, Repr

/-- kysely `SchemableIdentifierNode`: an identifier with an optional schema. -/
structure SchemableIdentifierNode where
  identifier : IdentifierNode
  schema : Option IdentifierNode
deriving DecidableEq, Repr

/-- kysely `TableNode`. -/
structure TableNode where
  table : SchemableIdentifierNode
deriving DecidableEq, Repr

/-- kysely `ColumnNode`. -/
structure ColumnNode where
  column : IdentifierNode
deriving DecidableEq, Repr

/-- kysely `ReferenceNode`: a column reference qualified by a table. -/
structure ReferenceNode where
  table : TableNode
  column : ColumnNode
deriving DecidableEq, Repr

/-- kysely `OperatorNode`. -/
structure OperatorNode where
  operator : String
deriving DecidableEq, Repr

/-- kysely `FilterExpressionNode`: the boolean expression trees the
transformer builds (`FilterNode` equality leaves and `AndNode`
combinators) together with `rawNode`, a stand-in leaf for any other
pre-existing filter expression, which the transformer treats as an
opaque subtree. -/
inductive FilterExpressionNode where
  | filterNode (left : ReferenceNode) (op : OperatorNode) (right : DbValue)
  | andNode (left : FilterExpressionNode) (right : FilterExpressionNode)
  | rawNode (sql : String)
deriving DecidableEq, Repr

/-- kysely `WhereNode`: wraps the filter expression (field `where` in
TypeScript; renamed since `where` is a Lean keyword). -/
structure WhereNode where
  whereExpr : FilterExpressionNode
deriving DecidableEq, Repr

/-- One item of a SELECT statement's FROM list. `tableItem` is a direct
`TableNode` reference. `aliasItem` is an `AliasNode`: the transformer
inspects only `alias.kind` (whether the alias is an `IdentifierNode`),
never the aliased inner table, so the embedding records the inner table
and that kind test. -/
inductive FromItem where
  | tableItem (table : SchemableIdentifierNode)
  | aliasItem (inner : SchemableIdentifierNode) (aliasIsIdentifier : Bool)
deriving DecidableEq, Repr

/-- kysely `FromNode`. -/
structure FromNode where
  froms : List FromItem
deriving DecidableEq, Repr

/-- kysely `SelectQueryNode`, restricted to the fields
`transformSelectQuery` touches (`from`, `where`; `from` is a Lean
keyword, hence `fromNode`) plus `selections`, a stand-in for the
remaining untouched fields. -/
structure SelectQueryNode where
  fromNode : FromNode
  whereNode : Option WhereNode
  selections : List String
deriving DecidableEq, Repr

/-- The `values` field of an INSERT: either the simple literal
`ValuesNode` form or some other node kind (e.g. values from a
sub-select), identified by its kind tag. -/
inductive ValuesSource where
  | valuesNode (rows : List (List DbValue))
  | otherValuesKind (kind : String)
deriving DecidableEq, Repr

/-- kysely `OnConflictNode`: the conflict-target columns plus stand-ins
for the conflict action (do-nothing flag, update list), which the
transformer must leave untouched. -/
structure OnConflictNode where
  columns : Option (List ColumnNode)
  doNothing : Bool
  updates : List String
deriving DecidableEq, Repr

/-- kysely `InsertQueryNode`, restricted to the fields
`transformInsertQuery` reads or writes. -/
structure InsertQueryNode where
  into : TableNode
  columns : List ColumnNode
  values : Option ValuesSource
  onConflict : Option OnConflictNode
deriving DecidableEq, Repr

/-- The argument passed to a dynamic column mapping: the in-progress
INSERT or SELECT node (TypeScript `InsertQueryNode | SelectQueryNode`). -/
inductive StmtNode where
  | insertQ (n : InsertQueryNode)
  | selectQ (n : SelectQueryNode)
deriving Repr

/-- The `value-or-factory` package's `ValueOrFactory`: either a plain
value or a function computing one from an argument. -/
inductive ValueOrFactory (α : Type) (β : Type) where
  | value (v : α)
  | factory (f : β → α)

/-- The `value-or-factory` package's `callOrGet`: return the value, or
apply the factory to the argument. -/
def callOrGet {α β : Type} : ValueOrFactory α β → β → α
  | .value v, _ => v
  | .factory f, b => f b

/-- Modelled from the spec: the name-matching half of a table pattern.
`src/matcher.ts` (`TableMatch`, `TableMatcher`) is imported by
`src/discriminator.ts` but is not among the sources; spec section 4.1
describes exact-string patterns (case-sensitive equality) and
wildcard/predicate patterns (delegate to the supplied pure function). -/
inductive NamePattern where
  | exact (s : String)
  | pred (f : String → Bool)

/-- Modelled from the spec: a table pattern is a name matcher plus an
optional schema matcher of the same shapes (spec sections 3 and 4.1). -/
structure TableMatch where
  name : NamePattern
  schema : Option NamePattern

/-- Modelled from the spec: test one name against a name pattern
(spec section 4.1). -/
def NamePattern.test : NamePattern → String → Bool
  | .exact s, n => n == s
  | .pred f, n => f n

/-- Modelled from the spec: `TableMatcher.test(tableName, schemaName?)`.
If the pattern has no schema constraint, any schema (including none)
matches; if it has one, the candidate schema must satisfy it, and an
absent candidate schema does not (spec section 4.1). -/
def TableMatcher.test (m : TableMatch) (table : String) (schema : Option String) : Bool :=
  m.name.test table &&
    match m.schema, schema with
    | none, _ => true
    | some _, none => false
    | some sm, some s => sm.test s

/-- `Discriminator` from `src/discriminator.ts`: a table pattern plus a
column-value mapping, fixed or computed from the statement node. A
TypeScript `Record` with `Object.entries` enumeration is embedded as an
association list in iteration order. -/
structure Discriminator where
  table : TableMatch
  columns : ValueOrFactory (List (String × DbValue)) StmtNode

/-- `DiscriminatorTransformerConfig` from `src/discriminator.ts`. -/
structure DiscriminatorTransformerConfig where
  discriminator : Discriminator
  throwOnUnsupported : Option Bool

/-- The base `OperationNodeTransformer.transformInsertQuery`: a default
bottom-up structural reconstruction of the node. In this embedding an
INSERT node's children contain no statement nodes that any overridden
hook rewrites, so the reconstruction is the identity. -/
def superTransformInsertQuery (node : InsertQueryNode) : InsertQueryNode :=
  node

/-- The base `OperationNodeTransformer.transformSelectQuery`; identity
for the same reason as `superTransformInsertQuery`. -/
def superTransformSelectQuery (node : SelectQueryNode) : SelectQueryNode :=
  node

/-- The table-matcher test applied to an INSERT node's target table,
exactly as in `transformInsertQuery`:
`test(node.into.table.identifier.name, node.into.table.schema?.name)`. -/
def insertTableMatches (cfg : DiscriminatorTransformerConfig) (node : InsertQueryNode) : Bool :=
  TableMatcher.test cfg.discriminator.table node.into.table.identifier.name
    (node.into.table.schema.map (fun s => s.name))

/-- Whether an optional values source is the simple literal `ValuesNode`
form (`node.values?.kind === "ValuesNode"`; an absent values field also
fails the test). -/
def isValuesNode : Option ValuesSource → Bool
  | some (.valuesNode _) => true
  | _ => false

/-- The message of the error thrown on an unsupported values shape. -/
def unsupportedValuesMessage : String :=
  "This type of ValuesNode is not supported by the DiscriminatorPlugin."

/-- The `ColumnNode` list built from the discriminator's column mapping
in `transformInsertQuery`: one node per mapping entry, keys only. -/
def discriminatorColumnNodes (cfg : DiscriminatorTransformerConfig) (arg : StmtNode) :
    List ColumnNode :=
  (callOrGet cfg.discriminator.columns arg).map fun e =>
    { column := { name := e.1 } }

/-- `DiscriminatorTransformer.transformInsertQuery`: run the default
structural recursion, return unchanged when the table matcher rejects
the target; on a non-`ValuesNode` values shape throw (default) or return
unchanged; otherwise append the discriminator column names to the
conflict-target columns of the conflict clause, when one exists. -/
def transformInsertQuery (cfg : DiscriminatorTransformerConfig)
    (originalNode : InsertQueryNode) : Except String InsertQueryNode :=
  let node := superTransformInsertQuery originalNode
  if ¬ insertTableMatches cfg node then
    .ok node
  else if ¬ isValuesNode node.values then
    if cfg.throwOnUnsupported.getD true then
      .error unsupportedValuesMessage
    else
      .ok node
  else
    .ok { node with
      onConflict := node.onConflict.map fun oc =>
        { oc with
          columns := some ((oc.columns.getD []) ++ discriminatorColumnNodes cfg (.insertQ node)) } }

/-- The per-item table extraction of `transformSelectQuery`: a direct
`TableNode` FROM item yields its (name, optional schema); an aliased
FROM item yields nothing, whether or not its alias is an
`IdentifierNode` (both branches of the source return `[]`). -/
def fromTableRefs : FromItem → List (String × Option String)
  | .tableItem t => [(t.identifier.name, t.schema.map (fun s => s.name))]
  | .aliasItem _ _ => []

/-- The `fromTables` list of `transformSelectQuery`: the flat-map of
`fromTableRefs` over the FROM list. -/
def selectFromTables (node : SelectQueryNode) : List (String × Option String) :=
  node.fromNode.froms.flatMap fromTableRefs

/-- One synthesized equality predicate of `transformSelectQuery`:
`table.column = value`, with the table reference rebuilt from the
extracted (name, optional schema). -/
def eqFilterNode (table : String) (schema : Option String) (column : String)
    (value : DbValue) : FilterExpressionNode :=
  .filterNode
    { table := { table := { identifier := { name := table },
                            schema := schema.map fun s => { name := s } } },
      column := { column := { name := column } } }
    { operator := "=" }
    value

/-- The synthesized equality predicates of `transformSelectQuery`: for
each extracted FROM table accepted by the table matcher, one predicate
per entry of the column mapping (computed from the in-progress node),
in FROM-list order then mapping iteration order. -/
def synthesizedPreds (cfg : DiscriminatorTransformerConfig) (node : SelectQueryNode) :
    List FilterExpressionNode :=
  (selectFromTables node).flatMap fun t =>
    if ¬ TableMatcher.test cfg.discriminator.table t.1 t.2 then
      []
    else
      (callOrGet cfg.discriminator.columns (.selectQ node)).map fun e =>
        eqFilterNode t.1 t.2 e.1 e.2

/-- The `reduce` of `transformSelectQuery` that AND-combines the
collected filter expressions left to right, starting from `undefined`. -/
def combineFilters (eqNodes : List FilterExpressionNode) : Option FilterExpressionNode :=
  eqNodes.foldl
    (fun prev current =>
      match prev with
      | none => some current
      | some p => some (.andNode p current))
    none

/-- `DiscriminatorTransformer.transformSelectQuery`: run the default
structural recursion, collect the synthesized predicates followed by the
pre-existing WHERE expression when present, AND-combine them left to
right, and install the result as the new WHERE (returning the node
unchanged when nothing was collected). -/
def transformSelectQuery (cfg : DiscriminatorTransformerConfig)
    (originalNode : SelectQueryNode) : SelectQueryNode :=
  let node := superTransformSelectQuery originalNode
  let eqNodes := synthesizedPreds cfg node ++
    (match node.whereNode with
     | some w => [w.whereExpr]
     | none => [])
  match combineFilters eqNodes with
  | none => node
  | some filterNode => { node with whereNode := some { whereExpr := filterNode } }

/-- A root statement node, as dispatched on by
`OperationNodeTransformer.transformNode`: an INSERT, a SELECT, or any
other node kind, on which only the default structural recursion runs
(identity in this embedding, as in `superTransformInsertQuery`). -/
inductive RootOperationNode where
  | insertQ (n : InsertQueryNode)
  | selectQ (n : SelectQueryNode)
  | otherNode (kind : String)
deriving Repr

/-- One transformer pass over a root node
(`OperationNodeTransformer.transformNode` with the two overridden
hooks). -/
def transformNode (cfg : DiscriminatorTransformerConfig) :
    RootOperationNode → Except String RootOperationNode
  | .insertQ n => (transformInsertQuery cfg n).map .insertQ
  | .selectQ n => .ok (.selectQ (transformSelectQuery cfg n))
  | .otherNode k => .ok (.otherNode k)

/-- `DiscriminatorPluginOptions` from `src/discriminator.ts`. -/
structure DiscriminatorPluginOptions where
  tables : List Discriminator
  throwOnUnsupported : Option Bool

/-- The transformer configuration the plugin constructor builds for one
discriminator. -/
def mkTransformerConfig (opts : DiscriminatorPluginOptions) (d : Discriminator) :
    DiscriminatorTransformerConfig :=
  { discriminator := d, throwOnUnsupported := opts.throwOnUnsupported }

/-- `DiscriminatorPlugin.transformQuery`: reduce the node through the
transformers built from the configured discriminator list, in array
order. -/
def DiscriminatorPlugin.transformQuery (opts : DiscriminatorPluginOptions)
    (node : RootOperationNode) : Except String RootOperationNode :=
  (opts.tables.map (mkTransformerConfig opts)).foldl
    (fun acc cfg => acc.bind (transformNode cfg)) (.ok node)

/-- `DiscriminatorPlugin.transformResult`: returns its argument. -/
def DiscriminatorPlugin.transformResult {α : Type} (result : α) : α :=
  result

/-- The left-associated AND-chain starting from `p`:
`chainAnd p [q1, q2, q3] = ((p AND q1) AND q2) AND q3`. Used to state
what the WHERE clause of a transformed SELECT must be. -/
def chainAnd (p : FilterExpressionNode) : List FilterExpressionNode → FilterExpressionNode
  | [] => p
  | q :: qs => chainAnd (.andNode p q) qs

/-- Size of a filter expression tree (counts every node). -/
def fsize : FilterExpressionNode → Nat
  | .filterNode _ _ _ => 1
  | .rawNode _ => 1
  | .andNode l r => fsize l + fsize r + 1

/-- Whether a FROM item is an aliased reference rather than a direct
table reference. -/
def isAliasItem : FromItem → Bool
  | .tableItem _ => false
  | .aliasItem _ _ => true

/-- Sequential application of one transformer per discriminator, in list
order, each transformer receiving the previous one's output; an error
aborts the chain, as a thrown exception would. The pipeline is proved
equal to this. -/
def seqTransform (thr : Option Bool) :
    List Discriminator → RootOperationNode → Except String RootOperationNode
  | [], n => .ok n
  | d :: ds, n =>
    (transformNode { discriminator := d, throwOnUnsupported := thr } n).bind
      (seqTransform thr ds)

/-! Concrete fixtures used by the witness theorems. -/

/-- Shorthand for a column node. -/
def colNode (s : String) : ColumnNode :=
  { column := { name := s } }

/-- A schemable identifier with no schema. -/
def plainId (s : String) : SchemableIdentifierNode :=
  { identifier := { name := s }, schema := none }

/-- A transformer configuration whose rule matches the table named
`orders` in any schema and carries the fixed column mapping
`tenant_id = 7`, with `throwOnUnsupported` unset (defaulting to true). -/
def cfgOrders : DiscriminatorTransformerConfig :=
  { discriminator :=
      { table := { name := .exact "orders", schema := none },
        columns := .value [("tenant_id", .int 7)] },
    throwOnUnsupported := none }

/-- An INSERT into `orders` with a literal values list and a conflict
clause targeting columns `c1`, `c2`. -/
def insertMatching : InsertQueryNode :=
  { into := { table := plainId "orders" },
    columns := [colNode "a"],
    values := some (.valuesNode [[.int 1]]),
    onConflict := some { columns := some [colNode "c1", colNode "c2"],
                         doNothing := true, updates := [] } }

/-- An INSERT into `orders` with a literal values list and no conflict
clause. -/
def insertNoConflict : InsertQueryNode :=
  { into := { table := plainId "orders" },
    columns := [colNode "a"],
    values := some (.valuesNode [[.int 1]]),
    onConflict := none }

/-- An INSERT into `orders` whose values field is absent. -/
def insertNoValues : InsertQueryNode :=
  { into := { table := plainId "orders" },
    columns := [colNode "a"],
    values := none,
    onConflict := none }

/-- An INSERT into `people`, which `cfgOrders` does not match, with a
non-literal values source. -/
def insertNonMatching : InsertQueryNode :=
  { into := { table := plainId "people" },
    columns := [colNode "a"],
    values := some (.otherValuesKind "SelectQueryNode"),
    onConflict := none }

/-- A SELECT from `orders` with a pre-existing WHERE clause. -/
def selectOrders : SelectQueryNode :=
  { fromNode := { froms := [.tableItem (plainId "orders")] },
    whereNode := some { whereExpr := .rawNode "w0" },
    selections := ["id"] }

/-- A SELECT from `orders` with no WHERE clause. -/
def selectOrdersNoWhere : SelectQueryNode :=
  { fromNode := { froms := [.tableItem (plainId "orders")] },
    whereNode := none,
    selections := ["id"] }

/-- A SELECT from `people`, which `cfgOrders` does not match, with a
pre-existing WHERE clause. -/
def selectNonMatching : SelectQueryNode :=
  { fromNode := { froms := [.tableItem (plainId "people")] },
    whereNode := some { whereExpr := .rawNode "w1" },
    selections := ["id"] }

/-- A SELECT whose only FROM item is an aliased reference to `orders`
(a table `cfgOrders` would match if referenced directly). -/
def selectAliasOnly : SelectQueryNode :=
  { fromNode := { froms := [.aliasItem (plainId "orders") true] },
    whereNode := none,
    selections := ["id"] }

/-- The single equality predicate `cfgOrders` synthesizes for a direct
FROM reference to `orders`. -/
def ordersPred : FilterExpressionNode :=
  eqFilterNode "orders" none "tenant_id" (.int 7)

/-! Helper lemmas shared by the claim theorems. -/

lemma foldl_and_some (l : List FilterExpressionNode) :
    ∀ acc : FilterExpressionNode,
      l.foldl
        (fun prev current =>
          match prev with
          | none => some current
          | some p => some (.andNode p current))
        (some acc) = some (chainAnd acc l) := by
  induction l with
  | nil => intro acc; rfl
  | cons q qs ih =>
    intro acc
    rw [List.foldl_cons]
    exact ih (.andNode acc q)

lemma combineFilters_cons (p : FilterExpressionNode) (l : List FilterExpressionNode) :
    combineFilters (p :: l) = some (chainAnd p l) := by
  rw [combineFilters, List.foldl_cons]
  exact foldl_and_some l p

lemma combineFilters_nil : combineFilters [] = none := rfl

lemma chainAnd_append_last (l : List FilterExpressionNode) (x : FilterExpressionNode) :
    ∀ p, chainAnd p (l ++ [x]) = .andNode (chainAnd p l) x := by
  induction l with
  | nil => intro p; rfl
  | cons q qs ih => intro p; exact ih (.andNode p q)

lemma andNode_ne_left (a b : FilterExpressionNode) : FilterExpressionNode.andNode a b ≠ a := by
  intro h
  have hs := congrArg fsize h
  simp only [fsize] at hs
  omega

lemma flatMap_eq_nil_of_forall {α β : Type} (l : List α) (f : α → List β)
    (h : ∀ a ∈ l, f a = []) : l.flatMap f = [] := by
  induction l with
  | nil => rfl
  | cons x xs ih =>
    rw [List.flatMap_cons, h x (by simp), ih (fun a ha => h a (by simp [ha]))]
    rfl

lemma synthesizedPreds_nil_of_no_match (cfg : DiscriminatorTransformerConfig)
    (s : SelectQueryNode)
    (hs : ∀ t ∈ selectFromTables s, TableMatcher.test cfg.discriminator.table t.1 t.2 = false) :
    synthesizedPreds cfg s = [] := by
  apply flatMap_eq_nil_of_forall
  intro t ht
  simp [hs t ht]

lemma whereNode_eta (s : SelectQueryNode) (w : WhereNode) (hw : s.whereNode = some w) :
    ({ s with whereNode := some { whereExpr := w.whereExpr } } : SelectQueryNode) = s := by
  cases s
  cases w
  simp_all

lemma transformSelectQuery_of_preds_nil (cfg : DiscriminatorTransformerConfig)
    (s : SelectQueryNode) (h : synthesizedPreds cfg s = []) :
    transformSelectQuery cfg s = s := by
  simp only [transformSelectQuery, superTransformSelectQuery, h, List.nil_append]
  cases hw : s.whereNode with
  | none => simp [combineFilters_nil]
  | some w =>
    rw [combineFilters_cons]
    exact whereNode_eta s w hw

lemma synthesizedPreds_congr (cfg : DiscriminatorTransformerConfig)
    (m : List (String × DbValue)) (s₁ s₂ : SelectQueryNode)
    (hcol : cfg.discriminator.columns = .value m)
    (hfrom : s₁.fromNode = s₂.fromNode) :
    synthesizedPreds cfg s₁ = synthesizedPreds cfg s₂ := by
  simp [synthesizedPreds, selectFromTables, hcol, callOrGet, hfrom]

lemma foldl_bind_error (l : List DiscriminatorTransformerConfig) (e : String) :
    l.foldl (fun (acc : Except String RootOperationNode) cfg => acc.bind (transformNode cfg))
      (Except.error e) = Except.error e := by
  induction l with
  | nil => rfl
  | cons c cs ih =>
    rw [List.foldl_cons]
    exact ih

lemma transformQuery_eq_seqTransform (opts : DiscriminatorPluginOptions) :
    ∀ (ds : List Discriminator) (node : RootOperationNode),
      (ds.map (mkTransformerConfig opts)).foldl
        (fun acc cfg => acc.bind (transformNode cfg)) (.ok node)
      = seqTransform opts.throwOnUnsupported ds node := by
  intro ds
  induction ds with
  | nil => intro node; rfl
  | cons d rest ih =>
    intro node
    rw [List.map_cons, List.foldl_cons]
    cases h : transformNode (mkTransformerConfig opts d) node with
    | ok n₂ =>
      have hstep :
          (Except.ok node).bind (transformNode (mkTransformerConfig opts d)) = .ok n₂ := h
      rw [hstep, ih n₂]
      show _ = (transformNode (mkTransformerConfig opts d) node).bind _
      rw [h]
      rfl
    | error e =>
      have hstep :
          (Except.ok node).bind (transformNode (mkTransformerConfig opts d)) =
            .error e := h
      rw [hstep, foldl_bind_error]
      show _ = (transformNode (mkTransformerConfig opts d) node).bind _
      rw [h]
      rfl

/-! The claim theorems. -/

/-- C1: for every SELECT statement with a pre-existing WHERE clause W,
the transformed WHERE is exactly the left-associated AND-chain of the
synthesized equality predicates P1..Pk (one per column of each matching
table, in FROM-list order then column-mapping iteration order) with the
original filter W appended last; the existing filter is preserved and
conjoined with AND, never discarded and never OR-combined. -/
theorem claim_C1_select_where_is_and_chain (cfg : DiscriminatorTransformerConfig)
    (node : SelectQueryNode) (w : WhereNode) (hw : node.whereNode = some w) :
    (transformSelectQuery cfg node).whereNode =
      some { whereExpr :=
        match synthesizedPreds cfg node with
        | [] => w.whereExpr
        | p :: ps => chainAnd p (ps ++ [w.whereExpr]) } := by
  simp only [transformSelectQuery, superTransformSelectQuery, hw]
  cases hps : synthesizedPreds cfg node with
  | nil => simp [combineFilters_cons, chainAnd]
  | cons p ps => simp [combineFilters_cons]

/-- Witness for C1: a SELECT from the matching table `orders` with the
pre-existing WHERE `w0` ends up with WHERE
`(orders.tenant_id = 7) AND w0`. -/
theorem claim_C1_witness :
    (transformSelectQuery cfgOrders selectOrders).whereNode =
      some { whereExpr := .andNode ordersPred (.rawNode "w0") } := by
  have h := claim_C1_select_where_is_and_chain cfgOrders selectOrders
    { whereExpr := .rawNode "w0" } rfl
  rw [show synthesizedPreds cfgOrders selectOrders = [ordersPred] from rfl] at h
  exact h

/-- C2: for a matching INSERT with a literal values list and a conflict
clause whose target columns are [c1, c2], and a discriminator mapping
with the single key d1, the transformed conflict clause's target
columns are exactly [c1, c2, d1] (discriminator names appended after
all pre-existing columns), and every other part of the conflict clause
is untouched. -/
theorem claim_C2_insert_conflict_columns_appended
    (cfg : DiscriminatorTransformerConfig) (n : InsertQueryNode) (oc : OnConflictNode)
    (c₁ c₂ : ColumnNode) (d₁ : String) (v₁ : DbValue)
    (hm : insertTableMatches cfg n = true)
    (hv : isValuesNode n.values = true)
    (hc : n.onConflict = some oc)
    (hcols : oc.columns = some [c₁, c₂])
    (hd : callOrGet cfg.discriminator.columns (.insertQ n) = [(d₁, v₁)]) :
    transformInsertQuery cfg n =
      .ok { n with
            onConflict := some ({ oc with columns := some [c₁, c₂, colNode d₁] }) } := by
  simp [transformInsertQuery, superTransformInsertQuery, hm, hv, hc, hcols,
    discriminatorColumnNodes, hd, colNode]

/-- Witness for C2: the INSERT into `orders` with conflict columns
c1, c2 gains the discriminator column `tenant_id` at the end. -/
theorem claim_C2_witness :
    transformInsertQuery cfgOrders insertMatching =
      .ok { insertMatching with
            onConflict := some ({ columns :=
                                    some [colNode "c1", colNode "c2", colNode "tenant_id"],
                                  doNothing := true, updates := [] }) } :=
  claim_C2_insert_conflict_columns_appended cfgOrders insertMatching
    { columns := some [colNode "c1", colNode "c2"], doNothing := true, updates := [] }
    (colNode "c1") (colNode "c2") "tenant_id" (.int 7) rfl rfl rfl rfl rfl

/-- C3: the unsupported-construct error is raised exactly when a
matching INSERT has a non-literal values shape and throwOnUnsupported
is true or unset; every failure carries that one message (so it is
raised in no other situation); and with the flag false such a statement
is returned unchanged. -/
theorem claim_C3_unsupported_values_error (cfg : DiscriminatorTransformerConfig)
    (n : InsertQueryNode) :
    (transformInsertQuery cfg n = Except.error unsupportedValuesMessage ↔
      insertTableMatches cfg n = true ∧ isValuesNode n.values = false ∧
        cfg.throwOnUnsupported.getD true = true)
  ∧ ((transformInsertQuery cfg n).isOk = false →
      transformInsertQuery cfg n = Except.error unsupportedValuesMessage)
  ∧ (insertTableMatches cfg n = true → isValuesNode n.values = false →
      cfg.throwOnUnsupported.getD true = false →
      transformInsertQuery cfg n = Except.ok n) := by
  cases hm : insertTableMatches cfg n <;>
    cases hv : isValuesNode n.values <;>
      cases ht : cfg.throwOnUnsupported.getD true <;>
        simp [transformInsertQuery, superTransformInsertQuery, hm, hv, ht, Except.isOk,
          Except.toBool]

/-- C4: a statement whose target table (INSERT) or source tables
(SELECT) are all rejected by the rule's table matcher is returned
structurally unchanged, and no error is raised regardless of the
statement's values shape or the throwOnUnsupported setting. -/
theorem claim_C4_non_matching_passthrough (cfg : DiscriminatorTransformerConfig)
    (n : InsertQueryNode) (s : SelectQueryNode)
    (hn : insertTableMatches cfg n = false)
    (hs : ∀ t ∈ selectFromTables s,
      TableMatcher.test cfg.discriminator.table t.1 t.2 = false) :
    transformInsertQuery cfg n = Except.ok n ∧ transformSelectQuery cfg s = s := by
  constructor
  · simp [transformInsertQuery, superTransformInsertQuery, hn]
  · exact transformSelectQuery_of_preds_nil cfg s (synthesizedPreds_nil_of_no_match cfg s hs)

/-- Witness for C4: the INSERT into `people` (with a non-literal values
source and throwOnUnsupported unset) and the SELECT from `people` both
pass through the `orders` rule unchanged. -/
theorem claim_C4_witness :
    transformInsertQuery cfgOrders insertNonMatching = Except.ok insertNonMatching ∧
      transformSelectQuery cfgOrders selectNonMatching = selectNonMatching :=
  claim_C4_non_matching_passthrough cfgOrders insertNonMatching selectNonMatching rfl
    (by decide)

/-- C5: the transform never invents a conflict clause: whenever an
INSERT with no conflict clause is transformed to a node (rather than
raising), the resulting node also has no conflict clause, whether or
not the target table matches the rule. -/
theorem claim_C5_no_conflict_clause_invented (cfg : DiscriminatorTransformerConfig)
    (n r : InsertQueryNode) (h₀ : n.onConflict = none)
    (h : transformInsertQuery cfg n = Except.ok r) : r.onConflict = none := by
  by_cases hm : insertTableMatches cfg n
  · by_cases hv : isValuesNode n.values
    · simp [transformInsertQuery, superTransformInsertQuery, hm, hv, h₀] at h
      subst h
      simp
    · by_cases ht : cfg.throwOnUnsupported.getD true
      · simp [transformInsertQuery, superTransformInsertQuery, hm, hv, ht] at h
      · simp [transformInsertQuery, superTransformInsertQuery, hm, hv, ht] at h
        subst h
        exact h₀
  · simp [transformInsertQuery, superTransformInsertQuery, hm] at h
    subst h
    exact h₀

/-- Witness for C5: the matching INSERT into `orders` with no conflict
clause comes out with no conflict clause. -/
theorem claim_C5_witness : insertNoConflict.onConflict = none :=
  claim_C5_no_conflict_clause_invented cfgOrders insertNoConflict insertNoConflict rfl rfl

/-- C6: the pipeline's transformQuery equals the fold of the node
through one transformer per configured rule, in configured array order,
each transformer receiving the previous transformer's output (an error
aborting the chain, as a thrown exception does), and transformResult
returns its input unchanged for every result. -/
theorem claim_C6_pipeline_fold_and_result_identity (opts : DiscriminatorPluginOptions)
    (node : RootOperationNode) {α : Type} (r : α) :
    DiscriminatorPlugin.transformQuery opts node =
      seqTransform opts.throwOnUnsupported opts.tables node
  ∧ DiscriminatorPlugin.transformResult r = r :=
  ⟨transformQuery_eq_seqTransform opts opts.tables node, rfl⟩

/-- C7: applying the same rule's SELECT transform twice is not
idempotent: starting from a matching SELECT with no WHERE clause and a
fixed column mapping, a single application installs one copy of the
synthesized predicate chain while the double application installs two
AND-conjoined copies, so the doubly-transformed statement differs from
the singly-transformed one. -/
theorem claim_C7_select_not_idempotent (cfg : DiscriminatorTransformerConfig)
    (node : SelectQueryNode) (m : List (String × DbValue))
    (p : FilterExpressionNode) (ps : List FilterExpressionNode)
    (hcol : cfg.discriminator.columns = .value m)
    (hw : node.whereNode = none)
    (hps : synthesizedPreds cfg node = p :: ps) :
    (transformSelectQuery cfg node).whereNode = some { whereExpr := chainAnd p ps }
  ∧ (transformSelectQuery cfg (transformSelectQuery cfg node)).whereNode =
      some { whereExpr := .andNode (chainAnd p ps) (chainAnd p ps) }
  ∧ transformSelectQuery cfg (transformSelectQuery cfg node) ≠
      transformSelectQuery cfg node := by
  have h1 : transformSelectQuery cfg node =
      { node with whereNode := some { whereExpr := chainAnd p ps } } := by
    simp only [transformSelectQuery, superTransformSelectQuery, hps, hw]
    simp [combineFilters_cons]
  have h2 : transformSelectQuery cfg
        ({ node with whereNode := some { whereExpr := chainAnd p ps } }) =
      { node with
        whereNode := some { whereExpr := .andNode (chainAnd p ps) (chainAnd p ps) } } := by
    have hpsB : synthesizedPreds cfg
        ({ node with whereNode := some { whereExpr := chainAnd p ps } }) = p :: ps := by
      have hc := synthesizedPreds_congr cfg m
        ({ node with whereNode := some { whereExpr := chainAnd p ps } }) node hcol rfl
      rw [hc]
      exact hps
    simp only [transformSelectQuery, superTransformSelectQuery, hpsB]
    simp [combineFilters_cons, chainAnd_append_last]
  refine ⟨by rw [h1], by rw [h1, h2], ?_⟩
  intro heq
  rw [h1, h2] at heq
  have hwn := congrArg SelectQueryNode.whereNode heq
  simp at hwn
  exact andNode_ne_left _ _ hwn

/-- Witness for C7: the SELECT from `orders` with no WHERE clause gets
the tenant predicate once on the first application and twice, AND-ed,
on the second. -/
theorem claim_C7_witness :
    (transformSelectQuery cfgOrders selectOrdersNoWhere).whereNode =
      some { whereExpr := ordersPred }
  ∧ (transformSelectQuery cfgOrders
        (transformSelectQuery cfgOrders selectOrdersNoWhere)).whereNode =
      some { whereExpr := .andNode ordersPred ordersPred } := by
  have h := claim_C7_select_not_idempotent cfgOrders selectOrdersNoWhere
    [("tenant_id", DbValue.int 7)] ordersPred [] rfl rfl rfl
  exact ⟨h.1, h.2.1⟩

/-- C8: an aliased FROM item contributes no table reference and no
synthesized predicate; a SELECT all of whose FROM items are aliased
references is returned unchanged, even when the aliased tables would
match the rule's pattern. -/
theorem claim_C8_alias_from_items_skipped (cfg : DiscriminatorTransformerConfig)
    (inner : SchemableIdentifierNode) (b : Bool) (s : SelectQueryNode)
    (hs : ∀ f ∈ s.fromNode.froms, isAliasItem f = true) :
    fromTableRefs (.aliasItem inner b) = []
  ∧ selectFromTables s = []
  ∧ synthesizedPreds cfg s = []
  ∧ transformSelectQuery cfg s = s := by
  have h1 : selectFromTables s = [] := by
    apply flatMap_eq_nil_of_forall
    intro f hf
    have hf2 := hs f hf
    cases f with
    | tableItem t => simp [isAliasItem] at hf2
    | aliasItem i bb => rfl
  have h2 : synthesizedPreds cfg s = [] := by
    unfold synthesizedPreds
    rw [h1]
    rfl
  exact ⟨rfl, h1, h2, transformSelectQuery_of_preds_nil cfg s h2⟩

/-- Witness for C8: a SELECT whose only FROM item is an aliased
reference to `orders` — the very table the rule matches — is left
unchanged by the transform. -/
theorem claim_C8_witness :
    fromTableRefs (.aliasItem (plainId "orders") true) = []
  ∧ selectFromTables selectAliasOnly = []
  ∧ synthesizedPreds cfgOrders selectAliasOnly = []
  ∧ transformSelectQuery cfgOrders selectAliasOnly = selectAliasOnly :=
  claim_C8_alias_from_items_skipped cfgOrders (plainId "orders") true selectAliasOnly
    (by decide)

/-- C9: for a matching INSERT with a literal values list, only the
onConflict field changes: the target table, insert columns and values
list are carried over unchanged, so the discriminator contributes only
column names to the conflict target and never values to the inserted
rows. -/
theorem claim_C9_insert_frame (cfg : DiscriminatorTransformerConfig)
    (n : InsertQueryNode)
    (hm : insertTableMatches cfg n = true)
    (hv : isValuesNode n.values = true) :
    transformInsertQuery cfg n = Except.ok
      { into := n.into, columns := n.columns, values := n.values,
        onConflict := n.onConflict.map fun oc =>
          { oc with
            columns := some ((oc.columns.getD []) ++
              discriminatorColumnNodes cfg (.insertQ n)) } } := by
  simp [transformInsertQuery, superTransformInsertQuery, hm, hv]

/-- Witness for C9: the INSERT into `orders` keeps its target, insert
columns and values after the transform. -/
theorem claim_C9_witness :
    transformInsertQuery cfgOrders insertMatching = Except.ok
      { into := insertMatching.into, columns := insertMatching.columns,
        values := insertMatching.values,
        onConflict := insertMatching.onConflict.map fun oc =>
          { oc with
            columns := some ((oc.columns.getD []) ++
              discriminatorColumnNodes cfgOrders (.insertQ insertMatching)) } } :=
  claim_C9_insert_frame cfgOrders insertMatching rfl rfl

/-- C10: a matching INSERT whose values field is entirely absent takes
the unsupported-shape path: it raises the unsupported-construct error
when throwOnUnsupported is true or unset, and is returned unchanged
when the flag is false. -/
theorem claim_C10_absent_values_unsupported (cfg : DiscriminatorTransformerConfig)
    (n : InsertQueryNode)
    (hm : insertTableMatches cfg n = true)
    (hv : n.values = none) :
    transformInsertQuery cfg n =
      if cfg.throwOnUnsupported.getD true then Except.error unsupportedValuesMessage
      else Except.ok n := by
  have hvn : isValuesNode n.values = false := by rw [hv]; rfl
  by_cases ht : cfg.throwOnUnsupported.getD true <;>
    simp [transformInsertQuery, superTransformInsertQuery, hm, hvn, ht]

/-- Witness for C10: the INSERT into `orders` with no values field,
under the default (unset) throwOnUnsupported, raises the error. -/
theorem claim_C10_witness :
    transformInsertQuery cfgOrders insertNoValues =
      if cfgOrders.throwOnUnsupported.getD true then Except.error unsupportedValuesMessage
      else Except.ok insertNoValues :=
  claim_C10_absent_values_unsupported cfgOrders insertNoValues rfl rfl

end KyselyDiscriminator
